import Mathlib

/-!
Shallow embedding of the jlogger crate (src/src/level.rs, src/src/writer.rs,
src/src/timer.rs, src/src/lib.rs) and proofs about its specification.

Modelling conventions:
* Machine integers (`i64`, `usize`) are `Int` / `Nat`; the values involved
  (timestamps, byte counts) never approach the overflow bounds exercised here.
* Fallible Rust operations (`std::io` writes) are oracles passed in as
  `Except Unit Nat` arguments: the embedded function is a pure function of the
  outcomes of the underlying system calls.
* A Rust `panic!` (`unwrap()` on `None`/`Err`, out-of-bounds index) is `none`
  in an `Option`-returning embedding.
* `tracing::Level` and `tracing_subscriber::filter::LevelFilter` are ordered
  in tracing-core so that OFF < ERROR < WARN < INFO < DEBUG < TRACE and a
  record's `Level` satisfies `level <= filter` iff the filter enables that
  level; we embed both orders through `toNat` with OFF = 0 .. TRACE = 5 and
  record levels ERROR = 1 .. TRACE = 5.  The crate's own `LevelFilter` maps
  1:1 onto the tracing filter (`From<LevelFilter> for TraceLevelFilter`), so a
  single Lean type models both.
-/

namespace Jlogger

/-- Embeds `enum LevelFilter` from src/src/level.rs (also duplicated in
src/src/lib.rs): OFF, ERROR, WARN, INFO, DEBUG, TRACE. -/
inductive LevelFilter where
  | OFF
  | ERROR
  | WARN
  | INFO
  | DEBUG
  | TRACE
deriving DecidableEq, Repr

/-- Numeric rank of a filter, following the tracing-core order
OFF < ERROR < WARN < INFO < DEBUG < TRACE (derived `PartialOrd` on the Rust
enum declaration order). -/
def LevelFilter.toNat : LevelFilter → Nat
  | .OFF => 0
  | .ERROR => 1
  | .WARN => 2
  | .INFO => 3
  | .DEBUG => 4
  | .TRACE => 5

/-- Embeds `tracing::Level`, the severity attached to a record's metadata.
Unlike the filter it has no OFF variant. -/
inductive Level where
  | ERROR
  | WARN
  | INFO
  | DEBUG
  | TRACE
deriving DecidableEq, Repr

/-- Numeric rank of a record level, aligned with `LevelFilter.toNat` so that
`l.toNat ≤ f.toNat` holds iff the tracing comparison `level <= filter` does. -/
def Level.toNat : Level → Nat
  | .ERROR => 1
  | .WARN => 2
  | .INFO => 3
  | .DEBUG => 4
  | .TRACE => 5

/-- Embeds `impl From<String> for LevelFilter` from src/src/level.rs lines
26-38: the Rust `match s.as_str()` over the six lowercase tokens with a
catch-all arm mapping everything else to OFF. -/
def levelFilterFromString (s : String) : LevelFilter :=
  if s = "off" then .OFF
  else if s = "error" then .ERROR
  else if s = "warn" then .WARN
  else if s = "info" then .INFO
  else if s = "debug" then .DEBUG
  else if s = "trace" then .TRACE
  else .OFF

/-- Modelled from the spec: the repository defines no level-to-text rendering
(`level.rs` only has the text-to-level direction), so the canonical lowercase
text of each level is taken from the spec's token list
`off|error|warn|info|debug|trace` (spec section 6). -/
def LevelFilter.canonicalText : LevelFilter → String
  | .OFF => "off"
  | .ERROR => "error"
  | .WARN => "warn"
  | .INFO => "info"
  | .DEBUG => "debug"
  | .TRACE => "trace"

/-- Embeds `struct JloggerWriter` from src/src/writer.rs lines 7-10: an
optional shared file handle (here an abstract handle id) and a console flag. -/
structure JloggerWriter where
  log_file : Option Nat
  log_console : Bool
deriving DecidableEq, Repr

/-- Embeds `JloggerWriter::write` from src/src/writer.rs lines 13-33 (identical
in src/src/lib.rs lines 52-72).  `buf` is the buffer; `fileRes` / `consoleRes`
are the outcomes of the underlying `File::write` / `stderr().write` system
calls (only consulted when the corresponding destination is active; a file
write error propagates before the console write happens, via `?`). -/
def JloggerWriter.write (w : JloggerWriter) (buf : List Nat)
    (fileRes consoleRes : Except Unit Nat) : Except Unit Nat :=
  match (match w.log_file with | some _ => fileRes | none => Except.ok 0) with
  | Except.error e => Except.error e
  | Except.ok write_file =>
    match (if w.log_console then consoleRes else Except.ok 0) with
    | Except.error e => Except.error e
    | Except.ok write_console =>
      if 0 < write_file ∧ 0 < write_console then
        Except.ok (min write_file write_console)
      else if 0 < write_file then Except.ok write_file
      else if 0 < write_console then Except.ok write_console
      else Except.ok buf.length

/-- Bytes that reach the file destination during `JloggerWriter::write`: the
underlying `File::write` consumes a prefix of `buf` of the returned length,
and is only called when a file handle is present. -/
def JloggerWriter.fileDelivered (w : JloggerWriter) (buf : List Nat)
    (fileRes : Except Unit Nat) : List Nat :=
  match w.log_file, fileRes with
  | some _, Except.ok n => buf.take n
  | _, _ => []

/-- Bytes that reach the console destination during `JloggerWriter::write`: the
`stderr` write consumes a prefix of `buf`, is only attempted when the console
flag is set, and never happens if a preceding file write failed (the `?`
operator returns early). -/
def JloggerWriter.consoleDelivered (w : JloggerWriter) (buf : List Nat)
    (fileRes consoleRes : Except Unit Nat) : List Nat :=
  match w.log_file, fileRes with
  | some _, Except.error _ => []
  | _, _ =>
    if w.log_console then
      match consoleRes with
      | Except.ok n => buf.take n
      | Except.error _ => []
    else []

/-- Embeds `struct JloggerMakeWriter` from src/src/writer.rs lines 48-52:
the configured file handle, console flag and static maximum level. -/
structure JloggerMakeWriter where
  log_file : Option Nat
  log_console : Bool
  max_level : LevelFilter
deriving DecidableEq, Repr

/-- Embeds `JloggerMakeWriter::make_writer` from src/src/writer.rs lines 70-82:
both arms of the Rust `if let` build a writer with the configured file handle
and console flag. -/
def JloggerMakeWriter.make_writer (cfg : JloggerMakeWriter) : JloggerWriter :=
  match cfg.log_file with
  | some rw => { log_file := some rw, log_console := cfg.log_console }
  | none => { log_file := none, log_console := cfg.log_console }

/-- Embeds the level-resolution step of `JloggerMakeWriter::make_writer_for`
(src/src/writer.rs lines 85-89): the `JLOGGER_LEVEL` environment variable,
passed here as `env` because it is re-read on every call, is parsed when
present, otherwise the static `max_level` is used. -/
def JloggerMakeWriter.effectiveLevel (cfg : JloggerMakeWriter)
    (env : Option String) : LevelFilter :=
  match env with
  | some l => levelFilterFromString l
  | none => cfg.max_level

/-- Embeds `JloggerMakeWriter::make_writer_for` from src/src/writer.rs lines
84-99: if the record's level passes the effective-level gate the real writer
is returned, otherwise a writer with no file handle and the console disabled. -/
def JloggerMakeWriter.make_writer_for (cfg : JloggerMakeWriter)
    (env : Option String) (meta : Level) : JloggerWriter :=
  if meta.toNat ≤ (cfg.effectiveLevel env).toNat then
    cfg.make_writer
  else
    { log_file := none, log_console := false }

/-- Embeds `enum LogTimeFormat` from src/src/timer.rs lines 4-9 (also in
src/src/lib.rs): TimeStamp (uptime stamp), TimeLocal, TimeNone. -/
inductive LogTimeFormat where
  | TimeStamp
  | TimeLocal
  | TimeNone
deriving DecidableEq, Repr

/-- Embeds `struct JloggerTimer` from src/src/timer.rs lines 11-14: the
configured time format and the boot-time reference (seconds, `i64`). -/
structure JloggerTimer where
  time_format : LogTimeFormat
  system_start : Int
deriving DecidableEq, Repr

/-- Rust `str::split_whitespace` over a character list: maximal runs of
non-whitespace characters, with no empty groups.  `acc` holds the characters
of the current run in reverse. -/
def splitWsGo : List Char → List Char → List (List Char)
  | [], acc => if acc.isEmpty then [] else [acc.reverse]
  | c :: rest, acc =>
    if c.isWhitespace then
      if acc.isEmpty then splitWsGo rest []
      else acc.reverse :: splitWsGo rest []
    else splitWsGo rest (c :: acc)

/-- Embeds `str::split_whitespace` as used in src/src/timer.rs line 36. -/
def split_whitespace (s : String) : List String :=
  (splitWsGo s.data []).map (fun l => String.mk l)

/-- Embeds Rust `str::starts_with` (src/src/timer.rs line 35) as a
character-prefix test. -/
def strStartsWith (s pre : String) : Bool :=
  pre.data.isPrefixOf s.data

/-- Accumulates the decimal value of a digit run; `none` on the first
non-digit character. -/
def parseDigitsGo : List Char → Nat → Option Nat
  | [], acc => some acc
  | c :: rest, acc =>
    if c.isDigit then parseDigitsGo rest (acc * 10 + (c.toNat - 48))
    else none

/-- Parses a non-empty all-digit character run to its value. -/
def parseDigits : List Char → Option Nat
  | [] => none
  | l => parseDigitsGo l 0

/-- Embeds Rust `str::parse::<i64>` (src/src/timer.rs line 37): an optional
sign followed by at least one decimal digit (`i64` overflow, which cannot
occur for a /proc/stat boot time, is not modelled). -/
def parseI64 (s : String) : Option Int :=
  match s.data with
  | [] => none
  | c :: rest =>
    if c = '+' then (parseDigits rest).map Int.ofNat
    else if c = '-' then (parseDigits rest).map (fun n => -(Int.ofNat n))
    else (parseDigits (c :: rest)).map Int.ofNat

/-- Embeds the `btime` arm of `JloggerTimer::new` (src/src/timer.rs line 37):
`v[1].parse::<i64>().unwrap()`.  `none` models a panic: either the indexing
`v[1]` is out of bounds or the parse `unwrap` fails. -/
def btimeField (line : String) : Option Int :=
  match (split_whitespace line)[1]? with
  | none => none
  | some w => parseI64 w

/-- Embeds the line-scanning loop of `JloggerTimer::new` (src/src/timer.rs
lines 28-40): read lines until end of input (then fall back to `now`) or until
a line starting with "btime" is found (then parse its second field; a parse or
index failure is a panic, modelled as `none`). -/
def findSystemStart : List String → Int → Option Int
  | [], now => some now
  | line :: rest, now =>
    if strStartsWith line "btime" then btimeField line
    else findSystemStart rest now

/-- Embeds `JloggerTimer::new` from src/src/timer.rs lines 17-49.  `statLines`
is the content of /proc/stat as a list of successfully read lines, or `none`
when the file cannot be opened; `now` is `chrono::Local::now().timestamp()`.
The result is `none` exactly when the Rust code panics. -/
def JloggerTimer.new (fmt : LogTimeFormat) (statLines : Option (List String))
    (now : Int) : Option JloggerTimer :=
  match statLines with
  | none => some { time_format := fmt, system_start := now }
  | some lines =>
    match findSystemStart lines now with
    | none => none
    | some s => some { time_format := fmt, system_start := s }

/-- Little-endian decimal digits of a natural number; models the digit
production inside Rust's integer `Display`. -/
def natDigitsRev (n : Nat) : List Char :=
  if n < 10 then [Nat.digitChar n]
  else Nat.digitChar (n % 10) :: natDigitsRev (n / 10)
decreasing_by exact Nat.div_lt_self (by omega) (by omega)

/-- Decimal representation of a natural number, models Rust `Display` for a
non-negative integer. -/
def natRepr (n : Nat) : String :=
  String.mk (natDigitsRev n).reverse

/-- Decimal representation of an `i64`, models Rust `{}` formatting of `i64`. -/
def intRepr (n : Int) : String :=
  if n < 0 then "-" ++ natRepr n.natAbs else natRepr n.toNat

/-- Pads a string on the left with '0' up to width `k` (no truncation when it
is already longer). -/
def zeroPadTo (k : Nat) (s : String) : String :=
  String.mk (List.replicate (k - s.length) '0') ++ s

/-- Rust `{:<09}` formatting of an `i64`: the `0` flag makes the padding
sign-aware zero padding (it overrides the `<` alignment for integers via
`Formatter::pad_integral`): zeros are inserted between the sign and the
digits up to total width 9. -/
def signAwareZeroPad9 (n : Int) : String :=
  if n < 0 then "-" ++ zeroPadTo 8 (natRepr n.natAbs)
  else zeroPadTo 9 (natRepr n.toNat)

/-- Embeds the `TimeStamp` arm of `JloggerTimer::format_time`
(src/src/timer.rs lines 56-63):
`format!("{}.{:<09}", now.timestamp() - self.system_start,
now.timestamp_nanos() % 1000000000)`.  Rust `%` on `i64` truncates toward
zero, i.e. `Int.tmod`. -/
def formatTimeStamp (nowSec nowNanos system_start : Int) : String :=
  intRepr (nowSec - system_start) ++ "." ++
    signAwareZeroPad9 (Int.tmod nowNanos 1000000000)

/-- Embeds `JloggerTimer::format_time` from src/src/timer.rs lines 53-71.
`nowSec` / `nowNanos` are `now.timestamp()` and `now.timestamp_nanos()`;
`localTimeStr` is the chrono-rendered "%Y-%m-%d %H:%M:%S" string for the
TimeLocal arm, which depends only on the wall clock and time zone. -/
def JloggerTimer.format_time (t : JloggerTimer) (nowSec nowNanos : Int)
    (localTimeStr : String) : String :=
  match t.time_format with
  | .TimeNone => ""
  | .TimeStamp => formatTimeStamp nowSec nowNanos t.system_start
  | .TimeLocal => localTimeStr

/-- Embeds `struct JloggerBuilder` from src/src/lib.rs lines 197-204. -/
structure JloggerBuilder where
  max_level : LevelFilter
  log_console : Bool
  log_file : Option String
  log_file_append : Bool
  log_runtime : Bool
  time_format : LogTimeFormat
deriving DecidableEq, Repr

/-- Embeds `JloggerBuilder::new` from src/src/lib.rs lines 227-236. -/
def JloggerBuilder.new : JloggerBuilder where
  max_level := .INFO
  log_console := true
  log_file := none
  log_file_append := true
  log_runtime := false
  time_format := .TimeNone

/-- Embeds `impl Default for JloggerBuilder` from src/src/lib.rs lines
206-210: `default()` delegates to `new()`. -/
def JloggerBuilder.default : JloggerBuilder :=
  JloggerBuilder.new

/-- Embeds the setter `JloggerBuilder::max_level` (src/src/lib.rs lines
241-244); renamed with a `set_` prefix because in Lean the field projection
already carries the source name. -/
def JloggerBuilder.set_max_level (b : JloggerBuilder) (l : LevelFilter) :
    JloggerBuilder :=
  { b with max_level := l }

/-- Embeds the setter `JloggerBuilder::log_console` (src/src/lib.rs lines
248-251). -/
def JloggerBuilder.set_log_console (b : JloggerBuilder) (c : Bool) :
    JloggerBuilder :=
  { b with log_console := c }

/-- Embeds the setter `JloggerBuilder::log_file` (src/src/lib.rs lines
258-265): only a `Some((path, append))` argument updates the path and the
append flag; `None` leaves the builder unchanged. -/
def JloggerBuilder.set_log_file (b : JloggerBuilder)
    (arg : Option (String × Bool)) : JloggerBuilder :=
  match arg with
  | some (path, append) => { b with log_file := some path, log_file_append := append }
  | none => b

/-- Embeds the setter `JloggerBuilder::log_runtime` (src/src/lib.rs lines
275-278). -/
def JloggerBuilder.set_log_runtime (b : JloggerBuilder) (r : Bool) :
    JloggerBuilder :=
  { b with log_runtime := r }

/-- Embeds the setter `JloggerBuilder::log_time` (src/src/lib.rs lines
291-294). -/
def JloggerBuilder.set_log_time (b : JloggerBuilder) (t : LogTimeFormat) :
    JloggerBuilder :=
  { b with time_format := t }

/-- Embeds the file-system effect of `JloggerBuilder::build` on the configured
log path (src/src/lib.rs lines 297-314): when `append` is false the existing
file is removed (`fs::remove_file`, failure ignored) and then the handle is
opened with create+write+append+read, so the file starts empty; when `append`
is true the open preserves the prior contents (creating an empty file only if
none exists).  `prior` is the file contents before `build` (`none` = no file);
the result is the contents right after the handle is opened. -/
def buildLogFileContents (prior : Option (List Nat)) (append : Bool) :
    List Nat :=
  if append then prior.getD [] else []

/-! Theorems about the specification's claims. -/

/-- C1: the writer selected for a record is the real dual writer (carrying the
configured file handle and console flag) exactly when the record's level is at
most the effective level, and otherwise is the writer with both destinations
disabled, which delivers no bytes to either destination and reports the full
buffer length as a successful no-op; the real writer delivers the written
prefix to exactly the configured destinations. -/
theorem make_writer_for_level_gate (cfg : JloggerMakeWriter)
    (env : Option String) (meta : Level) (buf : List Nat)
    (fileRes consoleRes : Except Unit Nat) (n m : Nat) :
    (cfg.make_writer_for env meta =
      if meta.toNat ≤ (cfg.effectiveLevel env).toNat then
        { log_file := cfg.log_file, log_console := cfg.log_console }
      else { log_file := none, log_console := false }) ∧
    JloggerWriter.write { log_file := none, log_console := false } buf
      fileRes consoleRes = Except.ok buf.length ∧
    JloggerWriter.fileDelivered { log_file := none, log_console := false } buf
      fileRes = [] ∧
    JloggerWriter.consoleDelivered { log_file := none, log_console := false }
      buf fileRes consoleRes = [] ∧
    JloggerWriter.fileDelivered cfg.make_writer buf (Except.ok n) =
      (if cfg.log_file.isSome then buf.take n else []) ∧
    JloggerWriter.consoleDelivered cfg.make_writer buf (Except.ok n)
      (Except.ok m) = (if cfg.log_console then buf.take m else []) := by
  refine ⟨?_, rfl, rfl, rfl, ?_, ?_⟩
  · unfold JloggerMakeWriter.make_writer_for JloggerMakeWriter.make_writer
    cases h : cfg.log_file <;> simp [h]
  · unfold JloggerMakeWriter.make_writer JloggerWriter.fileDelivered
    cases h : cfg.log_file <;> simp [h]
  · unfold JloggerMakeWriter.make_writer JloggerWriter.consoleDelivered
    cases h : cfg.log_file <;> cases hc : cfg.log_console <;> simp [h, hc]

/-- C2: the effective level used by a gating decision is the level parsed from
the JLOGGER_LEVEL environment variable when it is present and the static
maximum level when it is absent; in particular with static level ERROR and
JLOGGER_LEVEL=debug, a DEBUG record gets the real dual writer (it is
emitted). -/
theorem effective_level_env_override (cfg : JloggerMakeWriter) (s : String) :
    cfg.effectiveLevel (some s) = levelFilterFromString s ∧
    cfg.effectiveLevel none = cfg.max_level ∧
    JloggerMakeWriter.make_writer_for
      { log_file := cfg.log_file, log_console := cfg.log_console,
        max_level := .ERROR } (some "debug") .DEBUG =
      { log_file := cfg.log_file, log_console := cfg.log_console } := by
  refine ⟨rfl, rfl, ?_⟩
  unfold JloggerMakeWriter.make_writer_for JloggerMakeWriter.make_writer
  cases h : cfg.log_file <;> simp [h, JloggerMakeWriter.effectiveLevel,
    levelFilterFromString, Level.toNat, LevelFilter.toNat]

/-- C3 counterexample: with both destinations active and both underlying
writes succeeding with the different byte counts 0 and 3, the reported count
is 3, not the minimum 0, refuting the claim at this input. -/
theorem write_min_count_counterexample :
    JloggerWriter.write { log_file := some 0, log_console := true } [1, 2, 3]
      (Except.ok 0) (Except.ok 3) = Except.ok 3 ∧
    (3 : Nat) ≠ min 0 3 := by
  constructor
  · rfl
  · decide

/-- C3 amended: the reported count is decided by the positivity of the two
byte counts, not by which destinations are active: the minimum is reported
when both counts are positive, the positive one when exactly one is, and the
full buffer length when both are zero (an inactive destination always
contributes count zero). -/
theorem write_count_by_positive_counts (buf : List Nat) (h nf nc : Nat)
    (fileRes consoleRes : Except Unit Nat) :
    JloggerWriter.write { log_file := some h, log_console := true } buf
      (Except.ok nf) (Except.ok nc) =
      Except.ok (if 0 < nf ∧ 0 < nc then min nf nc
        else if 0 < nf then nf else if 0 < nc then nc else buf.length) ∧
    JloggerWriter.write { log_file := some h, log_console := false } buf
      (Except.ok nf) consoleRes =
      Except.ok (if 0 < nf then nf else buf.length) ∧
    JloggerWriter.write { log_file := none, log_console := true } buf
      fileRes (Except.ok nc) =
      Except.ok (if 0 < nc then nc else buf.length) ∧
    JloggerWriter.write { log_file := none, log_console := false } buf
      fileRes consoleRes = Except.ok buf.length := by
  refine ⟨?_, ?_, ?_, rfl⟩ <;> simp [JloggerWriter.write] <;>
    split_ifs <;> rfl

/-- C4: after a build with append=false the file holds only bytes written
after that build (any prior contents, including those of an earlier
build-and-write run, are gone), while a build with append=true preserves the
prior contents and appends new bytes after them. -/
theorem build_append_semantics (prior : Option (List Nat))
    (bytes1 bytes2 c : List Nat) :
    buildLogFileContents prior false = [] ∧
    buildLogFileContents (some c) true = c ∧
    buildLogFileContents prior false ++ bytes1 = bytes1 ∧
    buildLogFileContents (some (buildLogFileContents prior false ++ bytes1))
      false ++ bytes2 = bytes2 ∧
    buildLogFileContents (some (buildLogFileContents prior false ++ bytes1))
      true ++ bytes2 = bytes1 ++ bytes2 := by
  refine ⟨rfl, rfl, ?_, ?_, ?_⟩ <;> simp [buildLogFileContents]

/-- C5: level parsing is a total function into the six levels; each of the
six lowercase tokens parses to its level and every other string parses to
OFF. -/
theorem from_text_total (s : String)
    (h : s ∉ (["off", "error", "warn", "info", "debug", "trace"] :
      List String)) :
    levelFilterFromString s = .OFF ∧
    levelFilterFromString "off" = .OFF ∧
    levelFilterFromString "error" = .ERROR ∧
    levelFilterFromString "warn" = .WARN ∧
    levelFilterFromString "info" = .INFO ∧
    levelFilterFromString "debug" = .DEBUG ∧
    levelFilterFromString "trace" = .TRACE := by
  simp only [List.mem_cons, List.not_mem_nil, or_false, not_or] at h
  obtain ⟨h1, h2, h3, h4, h5, h6⟩ := h
  refine ⟨?_, rfl, rfl, rfl, rfl, rfl, rfl⟩
  simp [levelFilterFromString, h1, h2, h3, h4, h5, h6]

/-- C5 witness: the unrecognized token "verbose" parses to OFF. -/
theorem from_text_total_witness :
    "verbose" ∉ (["off", "error", "warn", "info", "debug", "trace"] :
      List String) ∧
    levelFilterFromString "verbose" = .OFF :=
  ⟨by decide, (from_text_total "verbose" (by decide)).1⟩

/-- C8: parsing the canonical lowercase text of a level yields that level
back, for each of the six levels. -/
theorem level_text_roundtrip (l : LevelFilter) :
    levelFilterFromString l.canonicalText = l := by
  cases l <;> rfl

/-- C9: a newly created builder (and the Default instance, which delegates to
it) has maximum level INFO, console enabled, no log file, append mode true,
runtime tag disabled, and time format TimeNone. -/
theorem builder_new_defaults :
    JloggerBuilder.new =
      { max_level := .INFO, log_console := true, log_file := none,
        log_file_append := true, log_runtime := false,
        time_format := .TimeNone } ∧
    JloggerBuilder.default = JloggerBuilder.new :=
  ⟨rfl, rfl⟩

/-- C10: the log_file setter with None is the identity on the whole builder
(file path and append flag included), and every setter leaves every
configuration field other than its own unchanged. -/
theorem setters_frame (b : JloggerBuilder) (l : LevelFilter) (c r : Bool)
    (t : LogTimeFormat) (p : String) (a : Bool) :
    b.set_log_file none = b ∧
    ((b.set_max_level l).log_console = b.log_console ∧
      (b.set_max_level l).log_file = b.log_file ∧
      (b.set_max_level l).log_file_append = b.log_file_append ∧
      (b.set_max_level l).log_runtime = b.log_runtime ∧
      (b.set_max_level l).time_format = b.time_format) ∧
    ((b.set_log_console c).max_level = b.max_level ∧
      (b.set_log_console c).log_file = b.log_file ∧
      (b.set_log_console c).log_file_append = b.log_file_append ∧
      (b.set_log_console c).log_runtime = b.log_runtime ∧
      (b.set_log_console c).time_format = b.time_format) ∧
    ((b.set_log_file (some (p, a))).max_level = b.max_level ∧
      (b.set_log_file (some (p, a))).log_console = b.log_console ∧
      (b.set_log_file (some (p, a))).log_runtime = b.log_runtime ∧
      (b.set_log_file (some (p, a))).time_format = b.time_format) ∧
    ((b.set_log_runtime r).max_level = b.max_level ∧
      (b.set_log_runtime r).log_console = b.log_console ∧
      (b.set_log_runtime r).log_file = b.log_file ∧
      (b.set_log_runtime r).log_file_append = b.log_file_append ∧
      (b.set_log_runtime r).time_format = b.time_format) ∧
    ((b.set_log_time t).max_level = b.max_level ∧
      (b.set_log_time t).log_console = b.log_console ∧
      (b.set_log_time t).log_file = b.log_file ∧
      (b.set_log_time t).log_file_append = b.log_file_append ∧
      (b.set_log_time t).log_runtime = b.log_runtime) :=
  ⟨rfl, ⟨rfl, rfl, rfl, rfl, rfl⟩, ⟨rfl, rfl, rfl, rfl, rfl⟩,
    ⟨rfl, rfl, rfl, rfl⟩, ⟨rfl, rfl, rfl, rfl, rfl⟩,
    ⟨rfl, rfl, rfl, rfl, rfl⟩⟩

/-- Helper: a digit character produced by `Nat.digitChar` from a value below
ten satisfies `Char.isDigit`. -/
theorem digitChar_isDigit (m : Nat) (hm : m < 10) :
    (Nat.digitChar m).isDigit = true := by
  interval_cases m <;> rfl

/-- Helper: every character of the decimal digit list of a natural number is
a digit. -/
theorem natDigitsRev_all_digit (n : Nat) :
    ∀ c ∈ natDigitsRev n, c.isDigit = true := by
  induction n using Nat.strong_induction_on with
  | _ n ih =>
    unfold natDigitsRev
    split
    · rename_i h
      intro c hc
      simp only [List.mem_singleton] at hc
      subst hc
      exact digitChar_isDigit n h
    · rename_i h
      intro c hc
      rcases List.mem_cons.mp hc with h1 | h2
      · subst h1
        exact digitChar_isDigit _ (Nat.mod_lt _ (by omega))
      · exact ih (n / 10) (Nat.div_lt_self (by omega) (by omega)) c h2

/-- Helper: a natural number below `10 ^ k` has at most `k` decimal digits. -/
theorem natDigitsRev_length_le (k : Nat) :
    ∀ n : Nat, 0 < k → n < 10 ^ k → (natDigitsRev n).length ≤ k := by
  induction k with
  | zero => intro n h _; exact absurd h (lt_irrefl 0)
  | succ k ih =>
    intro n _ hn
    unfold natDigitsRev
    split
    · simp
    · rename_i h10
      simp only [List.length_cons]
      have hk : 0 < k := by
        rcases Nat.eq_zero_or_pos k with h0 | h
        · subst h0; simp at hn; omega
        · exact h
      have hdiv : n / 10 < 10 ^ k := by
        rw [pow_succ] at hn
        exact (Nat.div_lt_iff_lt_mul (by omega)).mpr hn
      have := ih (n / 10) hk hdiv
      omega

/-- Helper: the decimal representation of a natural number below `10 ^ 9` is
at most nine characters long. -/
theorem natRepr_length_le_nine (m : Nat) (hm : m < 10 ^ 9) :
    (natRepr m).length ≤ 9 := by
  have h := natDigitsRev_length_le 9 m (by norm_num) hm
  show (natDigitsRev m).reverse.length ≤ 9
  simpa using h

/-- Helper: zero-padding a string of at most nine characters to width nine
yields exactly nine characters. -/
theorem zeroPadTo_nine_length (s : String) (h : s.length ≤ 9) :
    (zeroPadTo 9 s).length = 9 := by
  unfold zeroPadTo
  rw [String.length_append]
  show (List.replicate (9 - s.length) '0').length + s.length = 9
  simp only [List.length_replicate]
  omega

/-- Helper: every character of a zero-padded decimal representation is a
digit. -/
theorem zeroPadTo_nine_digits (m : Nat) :
    ∀ c ∈ (zeroPadTo 9 (natRepr m)).data, c.isDigit = true := by
  intro c hc
  unfold zeroPadTo at hc
  rw [String.data_append] at hc
  rcases List.mem_append.mp hc with h1 | h2
  · have : c = '0' := List.eq_of_mem_replicate h1
    subst this; rfl
  · have : c ∈ (natDigitsRev m).reverse := h2
    exact natDigitsRev_all_digit m c (List.mem_reverse.mp this)

/-- C6: under the UptimeStamp format, whenever the wall clock is at or past
the recorded SystemStart and the nanosecond counter is non-negative (both
always true on a real clock), the rendered prefix is
`<non-negative integer>.<exactly 9 digits>`: the integer part is the decimal
representation of current seconds minus SystemStart, and the fractional part
is the current nanosecond count modulo 1e9 zero-padded to exactly nine digit
characters. -/
theorem uptime_stamp_format (nowSec nowNanos system_start : Int)
    (hs : system_start ≤ nowSec) (hn : 0 ≤ nowNanos) :
    ∃ fp : String,
      formatTimeStamp nowSec nowNanos system_start =
        natRepr (nowSec - system_start).toNat ++ "." ++ fp ∧
      fp = zeroPadTo 9 (natRepr (nowNanos % 1000000000).toNat) ∧
      fp.length = 9 ∧
      (∀ c ∈ fp.data, c.isDigit = true) := by
  have hm0 : 0 ≤ Int.tmod nowNanos 1000000000 := Int.tmod_nonneg _ hn
  have hmlt : Int.tmod nowNanos 1000000000 < 1000000000 :=
    Int.tmod_lt_of_pos _ (by norm_num)
  have hte : Int.tmod nowNanos 1000000000 = nowNanos % 1000000000 :=
    Int.tmod_eq_emod hn (by norm_num)
  have hmnat : (Int.tmod nowNanos 1000000000).toNat < 10 ^ 9 := by
    have h9 : (10 : Nat) ^ 9 = 1000000000 := by norm_num
    rw [h9]
    omega
  refine ⟨zeroPadTo 9 (natRepr (Int.tmod nowNanos 1000000000).toNat),
    ?_, ?_, ?_, ?_⟩
  · unfold formatTimeStamp intRepr signAwareZeroPad9
    rw [if_neg (by omega), if_neg (by omega)]
  · rw [hte]
  · exact zeroPadTo_nine_length _ (natRepr_length_le_nine _ hmnat)
  · exact zeroPadTo_nine_digits _

/-- C6 witness: at seconds 100, nanosecond counter 1234 and SystemStart 40,
the hypotheses hold and the rendered prefix decomposes as claimed (it is
"60.000001234"). -/
theorem uptime_stamp_format_witness :
    (40 : Int) ≤ 100 ∧ (0 : Int) ≤ 1234 ∧
    (∃ fp : String,
      formatTimeStamp 100 1234 40 =
        natRepr ((100 : Int) - 40).toNat ++ "." ++ fp ∧
      fp = zeroPadTo 9 (natRepr (((1234 : Int)) % 1000000000).toNat) ∧
      fp.length = 9 ∧
      (∀ c ∈ fp.data, c.isDigit = true)) :=
  ⟨by norm_num, by norm_num,
    uptime_stamp_format 100 1234 40 (by norm_num) (by norm_num)⟩

/-- C7 counterexample: with /proc/stat consisting of the single line
"btime abc" (a present btime line whose second field is not an integer),
timer construction panics (result `none`) instead of silently falling back to
the current wall-clock seconds 100, refuting the claim at this input. -/
theorem timer_malformed_btime_counterexample :
    JloggerTimer.new .TimeNone (some ["btime abc"]) 100 = none ∧
    (none : Option JloggerTimer) ≠
      some { time_format := .TimeNone, system_start := 100 } := by
  refine ⟨?_, by simp⟩
  rfl

/-- C7 amended: timer construction silently falls back to the current
wall-clock seconds when the boot-time source cannot be opened or contains no
line starting with "btime"; but when a btime line is present, its second
whitespace-separated field must exist and parse as an integer, otherwise
construction panics rather than falling back. -/
theorem timer_fallback_amended (lines : List String) (now : Int)
    (fmt : LogTimeFormat)
    (h : ∀ l ∈ lines, strStartsWith l "btime" = false) :
    JloggerTimer.new fmt none now =
      some { time_format := fmt, system_start := now } ∧
    JloggerTimer.new fmt (some lines) now =
      some { time_format := fmt, system_start := now } := by
  refine ⟨rfl, ?_⟩
  have key : findSystemStart lines now = some now := by
    induction lines with
    | nil => rfl
    | cons head tail ih =>
      have hl := h head (List.mem_cons_self head tail)
      have htail : ∀ l ∈ tail, strStartsWith l "btime" = false :=
        fun x hx => h x (List.mem_cons_of_mem head hx)
      simp only [findSystemStart, hl]
      simp only [Bool.false_eq_true, if_false]
      exact ih htail
  simp [JloggerTimer.new, key]

/-- C7 amended witness: with a two-line /proc/stat containing no btime line
and wall clock 7, construction falls back to SystemStart 7 (and likewise when
the file cannot be opened). -/
theorem timer_fallback_amended_witness :
    (∀ l ∈ (["cpu 1 2", "intr 5"] : List String),
      strStartsWith l "btime" = false) ∧
    (JloggerTimer.new .TimeNone none 7 =
      some { time_format := .TimeNone, system_start := 7 } ∧
    JloggerTimer.new .TimeNone (some ["cpu 1 2", "intr 5"]) 7 =
      some { time_format := .TimeNone, system_start := 7 }) :=
  ⟨by decide,
    timer_fallback_amended ["cpu 1 2", "intr 5"] 7 .TimeNone (by decide)⟩

end Jlogger
